import Mathlib

/-!
Verification of the HebbianConvSynapse convolutional synapse and the
ScaleNode operator.

Shallow embedding of `ngclearn/components/synapses/convolution/hebbianConvSynapse.py`
and `ngclearn/engine/nodes/ops/scaleNode.py`.

Tensors are modelled as a shape together with a flat list of rational entries.
The convolution arithmetic primitives (`conv2d`, `calc_dK_conv`, `calc_dX_conv`,
`_calc_dK_conv`, `_calc_dX_conv`, the two transpose-padding calculators) and the
optimizer step function live outside the analysed sources and are treated, as the
specification prescribes, as external collaborators: the embedding is parametric
over them.
-/

namespace NGCLearn

/-- A dense tensor: a shape (list of dimension sizes) and a flat data buffer. -/
structure Tensor where
  shape : List Nat
  data : List ℚ
deriving Repr, DecidableEq

/-- The all-zero tensor of a given shape, as built by `jnp.zeros(shape)`. -/
def Tensor.zeros (s : List Nat) : Tensor :=
  ⟨s, List.replicate s.prod 0⟩

/-- Scalar multiplication `t * c` (element-wise, as in jax broadcasting). -/
def Tensor.smul (c : ℚ) (t : Tensor) : Tensor :=
  ⟨t.shape, t.data.map (fun x => c * x)⟩

/-- Element-wise subtraction `a - b` of same-shape tensors. -/
def Tensor.sub (a b : Tensor) : Tensor :=
  ⟨a.shape, a.data.zipWith (fun x y => x - y) b.data⟩

/-- Element-wise clipping to the interval `[lo, hi]`, as `jnp.clip(t, lo, hi)`. -/
def Tensor.clip (t : Tensor) (lo hi : ℚ) : Tensor :=
  ⟨t.shape, t.data.map (fun x => max lo (min hi x))⟩

/-- Sum over the leading axis keeping it as 1, as in
`jnp.sum(t, axis=0, keepdims=True)`. -/
def Tensor.sumAxis0 (t : Tensor) : Tensor :=
  match t.shape with
  | [] => t
  | b :: rest =>
    let m := rest.prod
    let blocks := (List.range b).map (fun i => ((t.data.drop (i * m)).take m))
    ⟨1 :: rest, blocks.foldl (fun acc blk => acc.zipWith (fun x y => x + y) blk)
      (List.replicate m 0)⟩

/-- Element-wise `1 - x` (the jax expression `1 - t` with scalar broadcasting). -/
def Tensor.oneMinus (t : Tensor) : Tensor :=
  ⟨t.shape, t.data.map (fun x => 1 - x)⟩

/-- Anti-padding datum handed to the transposed convolution (pairs of
pre/post padding amounts per spatial dimension). Its structure is never
inspected by the synapse itself — it is produced by one external primitive
and consumed by another. -/
abbrev AntiPad := List (Nat × Nat)

/-- The `pad_args` datum computed by the parent `ConvSynapse` and passed
through to the convolution primitives; pass-through only. -/
abbrev PadArgs := List (Nat × Nat)

/-- Optimizer state (`opt_params`): seeded by the external optimizer and
passed through; the synapse never inspects it. -/
abbrev OptState := List Tensor

/-- The external convolution-arithmetic collaborator of the spec:
`conv2d`, the raw kernel/input gradient probes `_calc_dK_conv` /
`_calc_dX_conv`, the shape-corrected `calc_dK_conv` / `calc_dX_conv`, and the
two transpose-padding calculators `_conv_same_transpose_padding` /
`_conv_valid_transpose_padding`. -/
structure ConvPrims where
  conv2d : Tensor → Tensor → Nat → String → Tensor
  calc_dK_raw : Tensor → Tensor → Nat → PadArgs → Tensor
  calc_dX_raw : Tensor → Tensor → Nat → PadArgs → Tensor
  calc_dK : Tensor → Tensor → (Int × Int) → Nat → PadArgs → Tensor
  calc_dX : Tensor → Tensor → (Int × Int) → Nat → Option AntiPad → Tensor
  same_transpose_padding : Nat → Nat → Nat → Nat → AntiPad
  valid_transpose_padding : Nat → Nat → Nat → Nat → AntiPad

/-- A value that is either a plain python scalar or a tensor: the
`dBiases` result of `_evolve` is the float `0.` when bias is disabled and a
tensor otherwise. -/
inductive TVal where
  | scl : ℚ → TVal
  | tns : Tensor → TVal
deriving Repr, DecidableEq

/-- Construction-time configuration of a `HebbianConvSynapse`
(`shape` is `(k_size, k_size, n_in_chan, n_out_chan)`). `in_shape` and
`out_shape` are the compartment shapes fixed by the parent `ConvSynapse`. -/
structure HebbConfig where
  shape : Nat × Nat × Nat × Nat
  x_size : Nat
  bias_init : Option Unit
  stride : Nat
  padding : String
  pad_args : PadArgs
  w_bounds : ℚ
  is_nonnegative : Bool
  w_decay : ℚ
  sign_value : ℚ
  batch_size : Nat
  in_shape : List Nat
  out_shape : List Nat

/-- The mutable state of a `HebbianConvSynapse`: its compartments plus
the attributes `delta_shape` / `x_delta_shape` cached by `_init`. -/
structure HebbState where
  weights : Tensor
  biases : Tensor
  opt_params : OptState
  inputs : Tensor
  outputs : Tensor
  pre : Tensor
  post : Tensor
  dInputs : Tensor
  dWeights : Tensor
  dBiases : TVal
  delta_shape : Int × Int
  x_delta_shape : Int × Int

/-- Translation of `HebbianConvSynapse._init`: the one-time shape-calibration dry run.
Builds a zero input `_x`, the zeroed forward probe `_d`, and returns the
signed shape differences `(delta_shape, x_delta_shape)` between the raw
kernel/input gradient probes and the live kernel / live input. -/
def hebb_init (prims : ConvPrims) (batch_size x_size : Nat)
    (shape : Nat × Nat × Nat × Nat) (stride : Nat) (padding : String)
    (pad_args : PadArgs) (weights : Tensor) : (Int × Int) × (Int × Int) :=
  let n_in_chan := shape.2.2.1
  let _x := Tensor.zeros [batch_size, x_size, x_size, n_in_chan]
  let _d := (prims.conv2d _x weights stride padding).smul 0
  let _dK := prims.calc_dK_raw _x _d stride pad_args
  let dx : Int := (_dK.shape.getD 0 0 : Int) - (weights.shape.getD 0 0 : Int)
  let dy : Int := (_dK.shape.getD 1 0 : Int) - (weights.shape.getD 1 0 : Int)
  let delta_shape := (dx, dy)
  let _dx := prims.calc_dX_raw weights _d stride pad_args
  let dx2 : Int := (_dx.shape.getD 1 0 : Int) - (_x.shape.getD 1 0 : Int)
  let dy2 : Int := (_dx.shape.getD 2 0 : Int) - (_x.shape.getD 2 0 : Int)
  (delta_shape, (dx2, dy2))

/-- Translation of `HebbianConvSynapse._evolve`, line by line from the source.
The optimizer-application and bound-projection block of §4.3 is commented
out in the source, exactly as reproduced here, so `opt_params`, `weights`
and `biases` flow through unchanged. -/
def hebb_evolve (prims : ConvPrims)
    (_opt : OptState → List Tensor → List Tensor → OptState × List Tensor)
    (sign_value w_decay _w_bounds : ℚ) ( _is_nonnegative : Bool)
    (bias_init : Option Unit) (stride : Nat) (pad_args : PadArgs)
    (delta_shape : Int × Int) (pre post weights biases : Tensor)
    (opt_params : OptState) : OptState × Tensor × Tensor × Tensor × TVal :=
  let dWeights := prims.calc_dK pre post delta_shape stride pad_args
  let dWeights := dWeights.smul sign_value
  let dWeights := if 0 < w_decay then dWeights.sub (weights.smul w_decay)
                  else dWeights
  let dBiases : TVal :=
    if bias_init.isSome then .tns ((post.sumAxis0).smul sign_value)
    else .scl 0
  -- opt_params, [weights, biases] = opt(opt_params, [weights, biases], [dWeights, dBiases])
  -- if w_bounds > 0: weights = clip(weights, 0 or -w_bounds, w_bounds)
  (opt_params, weights, biases, dWeights, dBiases)

/-- Translation of `HebbianConvSynapse._backtransmit`. Here `k_size` is bound
by the python unpacking `k_size, k_size, n_in_chan, n_out_chan = shape`
(the second component wins, the two being equal for square kernels).
`antiPad` starts as `None` and is only set for the padding modes
`"SAME"` and `"VALID"`. -/
def hebb_backtransmit (prims : ConvPrims) (sign_value : ℚ) (x_size : Nat)
    (shape : Nat × Nat × Nat × Nat) (stride : Nat) (padding : String)
    (x_delta_shape : Int × Int) (_pre post weights : Tensor) : Tensor :=
  let k_size := shape.2.1
  let antiPad : Option AntiPad :=
    if padding = "SAME" then
      some (prims.same_transpose_padding (post.shape.getD 1 0) x_size k_size stride)
    else if padding = "VALID" then
      some (prims.valid_transpose_padding (post.shape.getD 1 0) x_size k_size stride)
    else none
  let dInputs := prims.calc_dX weights post x_delta_shape stride antiPad
  dInputs.smul sign_value

/-- Translation of `HebbianConvSynapse._reset`: the five zeroed compartment values. -/
def hebb_reset (in_shape out_shape : List Nat) :
    Tensor × Tensor × Tensor × Tensor × Tensor :=
  let preVals := Tensor.zeros in_shape
  let postVals := Tensor.zeros out_shape
  (preVals, postVals, preVals, postVals, preVals)

/-- The `evolve` resolver: run `_evolve` on the current compartments and
commit `opt_params`, `weights`, `biases`, `dWeights`, `dBiases`. -/
def HebbState.evolve (prims : ConvPrims)
    (opt : OptState → List Tensor → List Tensor → OptState × List Tensor)
    (cfg : HebbConfig) (s : HebbState) : HebbState :=
  let r := hebb_evolve prims opt cfg.sign_value cfg.w_decay cfg.w_bounds
    cfg.is_nonnegative cfg.bias_init cfg.stride cfg.pad_args s.delta_shape
    s.pre s.post s.weights s.biases s.opt_params
  { s with opt_params := r.1, weights := r.2.1, biases := r.2.2.1,
           dWeights := r.2.2.2.1, dBiases := r.2.2.2.2 }

/-- The `backtransmit` resolver: run `_backtransmit` and commit `dInputs`. -/
def HebbState.backtransmit (prims : ConvPrims) (cfg : HebbConfig)
    (s : HebbState) : HebbState :=
  let dInputs := hebb_backtransmit prims cfg.sign_value cfg.x_size
    cfg.shape cfg.stride cfg.padding s.x_delta_shape s.pre s.post s.weights
  { s with dInputs := dInputs }

/-- The `reset` resolver: commit the five values returned by `_reset` to
`inputs`, `outputs`, `pre`, `post`, `dInputs`. -/
def HebbState.reset (cfg : HebbConfig) (s : HebbState) : HebbState :=
  let r := hebb_reset cfg.in_shape cfg.out_shape
  { s with inputs := r.1, outputs := r.2.1, pre := r.2.2.1,
           post := r.2.2.2.1, dInputs := r.2.2.2.2 }

/-- Translation of `HebbianConvSynapse.__init__` after the parent constructor: sets up the
gradient compartments, runs the `_init` calibration probe once, and seeds
`opt_params` from `[weights, biases]` (or `[weights]` when bias is off).
`init_inputs` / `init_outputs` are the compartment values installed by the
parent `ConvSynapse` constructor, which is outside the analysed sources. -/
def HebbState.construct (prims : ConvPrims) (cfg : HebbConfig)
    (init_weights init_biases : Tensor)
    (opt_init : List Tensor → OptState)
    (init_inputs init_outputs : Tensor) : HebbState :=
  let deltas := hebb_init prims cfg.batch_size cfg.x_size cfg.shape cfg.stride
    cfg.padding cfg.pad_args init_weights
  { weights := init_weights
    biases := init_biases
    opt_params := opt_init (if cfg.bias_init.isSome
      then [init_weights, init_biases] else [init_weights])
    inputs := init_inputs
    outputs := init_outputs
    pre := Tensor.zeros cfg.in_shape
    post := Tensor.zeros cfg.out_shape
    dInputs := Tensor.zeros cfg.in_shape
    dWeights := init_weights.smul 0
    dBiases := .tns (init_biases.smul 0)
    delta_shape := deltas.1
    x_delta_shape := deltas.2 }

/-! ## The `ScaleNode` operator (`ngclearn/engine/nodes/ops/scaleNode.py`) -/

/-- The state of a `ScaleNode`: the cell clock `t`, the time constant `dt`,
the `scale` factor, and the two compartments `in` / `out`. -/
structure ScaleNodeState where
  t : ℚ
  dt : ℚ
  scale : ℚ
  comp_in : Tensor
  comp_out : Tensor

/-- Translation of `ScaleNode.step`: advance the clock by `dt`, gather the incoming
signal into the `in` compartment (`gathered` is the value the cable/bundle
machinery — an external collaborator — deposits there; when no cables are
attached it is the existing clamped `in` value), then set
`out = scale * (1 - in)`. -/
def ScaleNodeState.step (gathered : Tensor) (s : ScaleNodeState) :
    ScaleNodeState :=
  let t := s.t + s.dt
  let cin := gathered
  { s with t := t, comp_in := cin, comp_out := cin.oneMinus.smul s.scale }

/-! Helper lemmas and concrete evaluation fixtures. -/

theorem Tensor.smul_smul (a b : ℚ) (t : Tensor) :
    (t.smul a).smul b = t.smul (b * a) := by
  simp [Tensor.smul, List.map_map, Function.comp_def, mul_assoc]

theorem hebb_evolve_biases_frame (prims : ConvPrims)
    (opt : OptState → List Tensor → List Tensor → OptState × List Tensor)
    (cfg : HebbConfig) (s : HebbState) :
    (s.evolve prims opt cfg).biases = s.biases := rfl

/-- A concrete instantiation of the external convolution primitives, used
to evaluate the synapse functions at specific inputs. -/
def testPrims : ConvPrims where
  conv2d := fun _ _ _ _ => Tensor.zeros [1, 6, 6, 4]
  calc_dK_raw := fun _ _ _ _ => Tensor.zeros [3, 3, 1, 4]
  calc_dX_raw := fun _ _ _ _ => Tensor.zeros [1, 8, 8, 1]
  calc_dK := fun _ _ _ _ _ => ⟨[1], [2]⟩
  calc_dX := fun _ post _ _ ap =>
    match ap with
    | none => ⟨[1], [7]⟩
    | some _ => ⟨[1], [5 + (post.shape.getD 1 0 : ℚ)]⟩
  same_transpose_padding := fun o t k s => [(o, t), (k, s)]
  valid_transpose_padding := fun o t k s => [(o + t, k + s), (0, 0)]

/-- A concrete plain-gradient-step optimizer obeying the contract of the
optimizer collaborator in the spec. -/
def sgdStep (eta : ℚ) (st : OptState) (ps gs : List Tensor) :
    OptState × List Tensor :=
  (st, ps.zipWith (fun p g => p.sub (g.smul eta)) gs)

def tPre : Tensor := ⟨[1], [3]⟩

def tPost : Tensor := ⟨[2, 1], [4, 6]⟩

def tW : Tensor := ⟨[1], [2]⟩

def tB : Tensor := ⟨[1], [1]⟩

/-- A concrete synapse configuration with bias enabled. -/
def testCfg : HebbConfig where
  shape := (3, 3, 1, 4)
  x_size := 8
  bias_init := some ()
  stride := 1
  padding := "VALID"
  pad_args := []
  w_bounds := 1
  is_nonnegative := false
  w_decay := 0
  sign_value := 1
  batch_size := 1
  in_shape := [2]
  out_shape := [3]

/-- The same configuration with bias disabled. -/
def testCfgNoBias : HebbConfig := { testCfg with bias_init := none }

/-- A concrete reachable synapse state with nonzero transient compartments. -/
def testState : HebbState where
  weights := tW
  biases := tB
  opt_params := [tW]
  inputs := ⟨[2], [1, 1]⟩
  outputs := ⟨[3], [2, 2, 2]⟩
  pre := tPre
  post := tPost
  dInputs := ⟨[2], [9, 9]⟩
  dWeights := ⟨[1], [5]⟩
  dBiases := .scl 3
  delta_shape := (0, 0)
  x_delta_shape := (0, 0)

/-- C10: one step of ScaleNode sets the out compartment to
scale * (1 - x) element-wise, where x is the value gathered into the in
compartment — an inversion of the input around one followed by scaling,
not a direct scaling — and advances the node clock t by dt. -/
theorem scaleNode_step_inverts_then_scales (g : Tensor) (s : ScaleNodeState) :
    (s.step g).comp_out.data = g.data.map (fun x => s.scale * (1 - x)) ∧
    (s.step g).comp_out.shape = g.shape ∧
    (s.step g).comp_in = g ∧
    (s.step g).t = s.t + s.dt := by
  refine ⟨?_, rfl, rfl, rfl⟩
  simp [ScaleNodeState.step, Tensor.oneMinus, Tensor.smul, List.map_map,
    Function.comp_def]

/-- C7: reset zeroes the inputs, outputs, pre, post and dInputs
compartments to their configured shapes and leaves the kernel, bias,
optimizer state and the cached shape-correction offsets unchanged. -/
theorem reset_zeroes_transients_keeps_parameters (cfg : HebbConfig)
    (s : HebbState) :
    (s.reset cfg).inputs = Tensor.zeros cfg.in_shape ∧
    (s.reset cfg).outputs = Tensor.zeros cfg.out_shape ∧
    (s.reset cfg).pre = Tensor.zeros cfg.in_shape ∧
    (s.reset cfg).post = Tensor.zeros cfg.out_shape ∧
    (s.reset cfg).dInputs = Tensor.zeros cfg.in_shape ∧
    (s.reset cfg).weights = s.weights ∧
    (s.reset cfg).biases = s.biases ∧
    (s.reset cfg).opt_params = s.opt_params ∧
    (s.reset cfg).delta_shape = s.delta_shape ∧
    (s.reset cfg).x_delta_shape = s.x_delta_shape :=
  ⟨rfl, rfl, rfl, rfl, rfl, rfl, rfl, rfl, rfl, rfl⟩

/-- C8 counterexample: reset does not zero the dWeights compartment —
in the concrete state it keeps its nonzero value — refuting the claim
that all seven transient compartments are zeroed by reset. -/
theorem reset_keeps_nonzero_dWeights :
    (testState.reset testCfg).dWeights = ⟨[1], [5]⟩ ∧
    (⟨[1], [5]⟩ : Tensor) ≠ Tensor.zeros [1] := by
  refine ⟨rfl, ?_⟩
  decide

/-- C8 amended: reset zeroes the five compartments inputs, outputs, pre,
post and dInputs, but leaves the dWeights and dBiases compartments
unchanged, so the last two gradient compartments do persist across a
reset. -/
theorem reset_zeroes_five_keeps_gradients (cfg : HebbConfig) (s : HebbState) :
    (s.reset cfg).inputs = Tensor.zeros cfg.in_shape ∧
    (s.reset cfg).outputs = Tensor.zeros cfg.out_shape ∧
    (s.reset cfg).pre = Tensor.zeros cfg.in_shape ∧
    (s.reset cfg).post = Tensor.zeros cfg.out_shape ∧
    (s.reset cfg).dInputs = Tensor.zeros cfg.in_shape ∧
    (s.reset cfg).dWeights = s.dWeights ∧
    (s.reset cfg).dBiases = s.dBiases :=
  ⟨rfl, rfl, rfl, rfl, rfl, rfl, rfl⟩

/-- The zero input tensor built by the calibration dry run. -/
def probe_x (cfg : HebbConfig) : Tensor :=
  Tensor.zeros [cfg.batch_size, cfg.x_size, cfg.x_size, cfg.shape.2.2.1]

/-- The zeroed forward probe output of the calibration dry run. -/
def probe_d (prims : ConvPrims) (cfg : HebbConfig) (w : Tensor) : Tensor :=
  (prims.conv2d (probe_x cfg) w cfg.stride cfg.padding).smul 0

/-- The kernel-gradient probe output of the calibration dry run. -/
def probe_dK (prims : ConvPrims) (cfg : HebbConfig) (w : Tensor) : Tensor :=
  prims.calc_dK_raw (probe_x cfg) (probe_d prims cfg w) cfg.stride cfg.pad_args

/-- The input-gradient probe output of the calibration dry run. -/
def probe_dX (prims : ConvPrims) (cfg : HebbConfig) (w : Tensor) : Tensor :=
  prims.calc_dX_raw w (probe_d prims cfg w) cfg.stride cfg.pad_args

/-- C4: delta_shape and x_delta_shape are computed exactly once, at
construction, by the zero dry run — delta_shape is the signed difference
between the first two dimensions of the kernel-gradient probe output and
of the live kernel, x_delta_shape the signed difference between the
spatial dimensions of the input-gradient probe output and of the live
input — and no call to evolve, backtransmit or reset changes them. -/
theorem shape_offsets_fixed_at_construction (prims : ConvPrims)
    (cfg : HebbConfig) (w b ii io : Tensor) (oinit : List Tensor → OptState)
    (opt : OptState → List Tensor → List Tensor → OptState × List Tensor)
    (s : HebbState) :
    (HebbState.construct prims cfg w b oinit ii io).delta_shape =
      (((probe_dK prims cfg w).shape.getD 0 0 : Int) - (w.shape.getD 0 0 : Int),
       ((probe_dK prims cfg w).shape.getD 1 0 : Int) - (w.shape.getD 1 0 : Int)) ∧
    (HebbState.construct prims cfg w b oinit ii io).x_delta_shape =
      (((probe_dX prims cfg w).shape.getD 1 0 : Int) -
         ((probe_x cfg).shape.getD 1 0 : Int),
       ((probe_dX prims cfg w).shape.getD 2 0 : Int) -
         ((probe_x cfg).shape.getD 2 0 : Int)) ∧
    (s.evolve prims opt cfg).delta_shape = s.delta_shape ∧
    (s.evolve prims opt cfg).x_delta_shape = s.x_delta_shape ∧
    (s.backtransmit prims cfg).delta_shape = s.delta_shape ∧
    (s.backtransmit prims cfg).x_delta_shape = s.x_delta_shape ∧
    (s.reset cfg).delta_shape = s.delta_shape ∧
    (s.reset cfg).x_delta_shape = s.x_delta_shape :=
  ⟨rfl, rfl, rfl, rfl, rfl, rfl, rfl, rfl⟩

/-- C1: the code diverges from the claim. At a synapse configured with
w_bounds = 1 > 0 and a nonzero computed gradient, the returned opt_params
and kernel are the inputs unchanged — the optimizer-application and
clipping block of the source is commented out — while the claim prescribes
the kernel clip(step(weights, dWeights)), which differs here. -/
theorem evolve_skips_optimizer_and_clipping :
    (hebb_evolve testPrims (sgdStep 1) 1 0 1 false none 1 [] (0, 0)
      tPre tPost tW tB []).1 = [] ∧
    (hebb_evolve testPrims (sgdStep 1) 1 0 1 false none 1 [] (0, 0)
      tPre tPost tW tB []).2.1 = tW ∧
    (((sgdStep 1) [] [tW]
        [(hebb_evolve testPrims (sgdStep 1) 1 0 1 false none 1 [] (0, 0)
           tPre tPost tW tB []).2.2.2.1]).2.headD tW).clip (-1) 1 ≠ tW := by
  refine ⟨rfl, rfl, ?_⟩
  norm_num [hebb_evolve, sgdStep, testPrims, tPre, tPost, tW, tB,
    Tensor.smul, Tensor.sub, Tensor.clip, Tensor.mk.injEq]

/-- C2 counterexample: with w_decay = 1 and a nonzero kernel, the dWeights
returned by evolve at sign_value = 1 is not -1 times the dWeights returned
at sign_value = -1, because the decay term does not flip sign. -/
theorem sign_flip_fails_under_decay :
    (hebb_evolve testPrims (sgdStep 1) 1 1 1 false none 1 [] (0, 0)
      tPre tPost tW tB []).2.2.2.1 ≠
    ((hebb_evolve testPrims (sgdStep 1) (-1) 1 1 false none 1 [] (0, 0)
      tPre tPost tW tB []).2.2.2.1).smul (-1) := by
  norm_num [hebb_evolve, testPrims, tPre, tPost, tW, tB,
    Tensor.smul, Tensor.sub, Tensor.mk.injEq]

/-- C2 amended: when no decay is applied (w_decay not positive, the code
condition for skipping the decay term), the dWeights returned by evolve at
sign_value s is exactly -1 times the dWeights at sign_value -s; the
dInputs returned by backtransmit flips sign unconditionally, all other
inputs held equal. -/
theorem sign_flip_without_decay (prims : ConvPrims)
    (opt : OptState → List Tensor → List Tensor → OptState × List Tensor)
    (s w_decay w_bounds : ℚ) (nn : Bool) (bi : Option Unit) (stride : Nat)
    (pad_args : PadArgs) (ds : Int × Int) (pre post weights biases : Tensor)
    (op : OptState) (x_size : Nat) (shape : Nat × Nat × Nat × Nat)
    (padding : String) (xd : Int × Int) :
    (¬ 0 < w_decay →
      (hebb_evolve prims opt s w_decay w_bounds nn bi stride pad_args ds
        pre post weights biases op).2.2.2.1 =
      ((hebb_evolve prims opt (-s) w_decay w_bounds nn bi stride pad_args ds
        pre post weights biases op).2.2.2.1).smul (-1)) ∧
    hebb_backtransmit prims s x_size shape stride padding xd pre post weights =
      (hebb_backtransmit prims (-s) x_size shape stride padding xd pre post
        weights).smul (-1) := by
  constructor
  · intro h
    simp only [hebb_evolve, if_neg h]
    rw [Tensor.smul_smul]
    norm_num
  · simp only [hebb_backtransmit]
    rw [Tensor.smul_smul]
    norm_num

/-- C2 amended, witness at a concrete input with w_decay = 0. -/
theorem sign_flip_without_decay_witness :
    (hebb_evolve testPrims (sgdStep 1) 1 0 1 false none 1 [] (0, 0)
      tPre tPost tW tB []).2.2.2.1 =
    ((hebb_evolve testPrims (sgdStep 1) (-1) 0 1 false none 1 [] (0, 0)
      tPre tPost tW tB []).2.2.2.1).smul (-1) :=
  (sign_flip_without_decay testPrims (sgdStep 1) 1 0 1 false none 1 [] (0, 0)
    tPre tPost tW tB [] 8 (3, 3, 1, 4) "VALID" (0, 0)).1 (by norm_num)

/-- C3: backtransmit recomputes the anti-padding from the runtime spatial
size of post (its dimension 1) with the SAME-mode calculator when padding
is SAME and the VALID-mode calculator when padding is VALID, and returns
the input gradient computed from weights, post, x_delta_shape, stride and
that anti-padding, multiplied element-wise by sign_value. -/
theorem backtransmit_antipad_and_result (prims : ConvPrims) (s : ℚ)
    (x_size : Nat) (shape : Nat × Nat × Nat × Nat) (stride : Nat)
    (padding : String) (xd : Int × Int) (pre post weights : Tensor) :
    (padding = "SAME" →
      hebb_backtransmit prims s x_size shape stride padding xd pre post weights =
      (prims.calc_dX weights post xd stride
        (some (prims.same_transpose_padding (post.shape.getD 1 0) x_size
          shape.2.1 stride))).smul s) ∧
    (padding = "VALID" →
      hebb_backtransmit prims s x_size shape stride padding xd pre post weights =
      (prims.calc_dX weights post xd stride
        (some (prims.valid_transpose_padding (post.shape.getD 1 0) x_size
          shape.2.1 stride))).smul s) := by
  constructor <;> intro h <;> subst h <;> rfl

/-- C3 witness at concrete inputs, once per padding mode. -/
theorem backtransmit_antipad_witness :
    (hebb_backtransmit testPrims 1 8 (3, 3, 1, 4) 1 "SAME" (0, 0)
      tPre tPost tW =
      (testPrims.calc_dX tW tPost (0, 0) 1
        (some (testPrims.same_transpose_padding (tPost.shape.getD 1 0) 8 3
          1))).smul 1) ∧
    (hebb_backtransmit testPrims 1 8 (3, 3, 1, 4) 1 "VALID" (0, 0)
      tPre tPost tW =
      (testPrims.calc_dX tW tPost (0, 0) 1
        (some (testPrims.valid_transpose_padding (tPost.shape.getD 1 0) 8 3
          1))).smul 1) :=
  ⟨(backtransmit_antipad_and_result testPrims 1 8 (3, 3, 1, 4) 1 "SAME" (0, 0)
      tPre tPost tW).1 rfl,
   (backtransmit_antipad_and_result testPrims 1 8 (3, 3, 1, 4) 1 "VALID" (0, 0)
      tPre tPost tW).2 rfl⟩

/-- C5: with bias enabled, evolve returns dBiases equal to the sum of post
over the batch dimension times sign_value; with bias_init = None it
returns the scalar zero, and the biases compartment is unchanged by any
sequence of evolve calls. -/
theorem evolve_bias_gradient (prims : ConvPrims)
    (opt : OptState → List Tensor → List Tensor → OptState × List Tensor)
    (cfg : HebbConfig) (s : HebbState) :
    (cfg.bias_init = some () →
      (s.evolve prims opt cfg).dBiases =
        .tns ((s.post.sumAxis0).smul cfg.sign_value)) ∧
    (cfg.bias_init = none →
      (s.evolve prims opt cfg).dBiases = .scl 0) ∧
    (∀ n : ℕ,
      (Nat.iterate (fun st => st.evolve prims opt cfg) n s).biases =
        s.biases) := by
  refine ⟨?_, ?_, ?_⟩
  · intro h
    simp [HebbState.evolve, hebb_evolve, h]
  · intro h
    simp [HebbState.evolve, hebb_evolve, h]
  · intro n
    induction n with
    | zero => rfl
    | succ k ih =>
      rw [Function.iterate_succ_apply', hebb_evolve_biases_frame]
      exact ih

/-- C5 witness: both bias modes at concrete inputs. -/
theorem evolve_bias_gradient_witness :
    (testState.evolve testPrims (sgdStep 1) testCfg).dBiases =
      .tns ((testState.post.sumAxis0).smul testCfg.sign_value) ∧
    (testState.evolve testPrims (sgdStep 1) testCfgNoBias).dBiases = .scl 0 ∧
    (Nat.iterate
      (fun st => st.evolve testPrims (sgdStep 1) testCfgNoBias) 3
      testState).biases = testState.biases :=
  ⟨(evolve_bias_gradient testPrims (sgdStep 1) testCfg testState).1 rfl,
   ((evolve_bias_gradient testPrims (sgdStep 1) testCfgNoBias testState).2.1) rfl,
   ((evolve_bias_gradient testPrims (sgdStep 1) testCfgNoBias testState).2.2) 3⟩

/-- C6: with w_decay positive, the dWeights returned by evolve is the
sign-adjusted raw kernel gradient minus weights * w_decay; with
w_decay = 0 it is the sign-adjusted raw kernel gradient alone; and the
bias gradient is identical for any two decay settings, so decay is never
applied to it. -/
theorem evolve_decay_rule (prims : ConvPrims)
    (opt : OptState → List Tensor → List Tensor → OptState × List Tensor)
    (sv w_decay w_bounds : ℚ) (nn : Bool) (bi : Option Unit) (stride : Nat)
    (pad_args : PadArgs) (ds : Int × Int) (pre post weights biases : Tensor)
    (op : OptState) :
    (0 < w_decay →
      (hebb_evolve prims opt sv w_decay w_bounds nn bi stride pad_args ds
        pre post weights biases op).2.2.2.1 =
      ((prims.calc_dK pre post ds stride pad_args).smul sv).sub
        (weights.smul w_decay)) ∧
    (w_decay = 0 →
      (hebb_evolve prims opt sv w_decay w_bounds nn bi stride pad_args ds
        pre post weights biases op).2.2.2.1 =
      (prims.calc_dK pre post ds stride pad_args).smul sv) ∧
    (∀ d d' : ℚ,
      (hebb_evolve prims opt sv d w_bounds nn bi stride pad_args ds
        pre post weights biases op).2.2.2.2 =
      (hebb_evolve prims opt sv d' w_bounds nn bi stride pad_args ds
        pre post weights biases op).2.2.2.2) := by
  refine ⟨?_, ?_, ?_⟩
  · intro h
    simp [hebb_evolve, if_pos h]
  · intro h
    subst h
    simp [hebb_evolve]
  · intro d d'
    rfl

/-- C6 witness: decay on (w_decay = 1) and off (w_decay = 0) at concrete
inputs. -/
theorem evolve_decay_rule_witness :
    (hebb_evolve testPrims (sgdStep 1) 1 1 1 false none 1 [] (0, 0)
      tPre tPost tW tB []).2.2.2.1 =
      ((testPrims.calc_dK tPre tPost (0, 0) 1 []).smul 1).sub (tW.smul 1) ∧
    (hebb_evolve testPrims (sgdStep 1) 1 0 1 false none 1 [] (0, 0)
      tPre tPost tW tB []).2.2.2.1 =
      (testPrims.calc_dK tPre tPost (0, 0) 1 []).smul 1 :=
  ⟨(evolve_decay_rule testPrims (sgdStep 1) 1 1 1 false none 1 [] (0, 0)
      tPre tPost tW tB []).1 (by norm_num),
   (evolve_decay_rule testPrims (sgdStep 1) 1 0 1 false none 1 [] (0, 0)
      tPre tPost tW tB []).2.1 rfl⟩

/-- C9 counterexample: with the unsupported padding mode FULL,
backtransmit does not fail — it proceeds, handing the undefined (None)
anti-padding to the input-gradient primitive and returning its value. -/
theorem backtransmit_unsupported_padding_proceeds :
    hebb_backtransmit testPrims 1 8 (3, 3, 1, 4) 1 "FULL" (0, 0)
      tPre tPost tW = (testPrims.calc_dX tW tPost (0, 0) 1 none).smul 1 ∧
    (testPrims.calc_dX tW tPost (0, 0) 1 none).smul 1 = ⟨[1], [7]⟩ := by
  refine ⟨rfl, ?_⟩
  norm_num [testPrims, Tensor.smul, Tensor.mk.injEq]

/-- C9 amended: for any padding mode other than SAME and VALID,
backtransmit raises no error at the operation boundary: it computes the
anti-padding None and returns the input gradient evaluated with that
undefined anti-padding, times sign_value. -/
theorem backtransmit_unsupported_padding_uses_none (prims : ConvPrims)
    (s : ℚ) (x_size : Nat) (shape : Nat × Nat × Nat × Nat) (stride : Nat)
    (padding : String) (xd : Int × Int) (pre post weights : Tensor)
    (h1 : padding ≠ "SAME") (h2 : padding ≠ "VALID") :
    hebb_backtransmit prims s x_size shape stride padding xd pre post weights =
      (prims.calc_dX weights post xd stride none).smul s := by
  simp [hebb_backtransmit, h1, h2]

/-- C9 amended, witness at the concrete padding mode FULL. -/
theorem backtransmit_unsupported_padding_uses_none_witness :
    hebb_backtransmit testPrims 1 8 (3, 3, 1, 4) 1 "FULL" (0, 0)
      tPre tPost tW = (testPrims.calc_dX tW tPost (0, 0) 1 none).smul 1 :=
  backtransmit_unsupported_padding_uses_none testPrims 1 8 (3, 3, 1, 4) 1
    "FULL" (0, 0) tPre tPost tW (by decide) (by decide)

end NGCLearn
